import Mathlib

/-!
Verification of the model/credential configuration resolution engine of the
qwen-code repository.

The development embeds, as executable Lean definitions:

* the Bailian coding-plan managed-template module
  (`computeCodingPlanVersion`, `generateCodingPlanTemplate`,
  `getCodingPlanConfig`, `isCodingPlanConfig`, `CODING_PLAN_ENV_KEY`),
  translated from the TypeScript source;
* SHA-256 (FIPS 180-4) over the UTF-8 bytes of a string, used by
  `computeCodingPlanVersion` through the node `crypto` library in the source;
* a JSON value type with ordered object fields and a model of
  `JSON.stringify` (insertion-ordered keys, no whitespace), since the version
  hash is taken over the serialized template;
* the CLI `availableModels` module (`getAvailableModelsForAuthType` and the
  environment fallbacks), translated from the TypeScript source;
* the FieldResolver / GenerationConfigMerger, the ProviderCatalog `register`
  operation, the RuntimeModelRegistry and the ManagedTemplateUpdater
  `applyUpdate` state machine, which are described by the specification and
  the repository documentation but whose implementation is not among the
  provided sources; these are modelled from the spec, as marked on each
  definition.

Several recursive definitions carry an `if x = 0 then k else k` guard with
identical branches; the guard is semantically the identity (both branches are
equal) and only forces the accumulated numeral during kernel reduction so
that concrete hash computations evaluate within the default stack.
-/

namespace Qwen

/-! ## SHA-256 over the UTF-8 bytes of a string

Model of the node `createHash('sha256').update(s).digest('hex')` call used by
`computeCodingPlanVersion`. The message is packed into a single big-endian
natural number so that kernel reduction works on GMP-backed `Nat` operations.
-/

/-- Modulus for 32-bit words. -/
def M32 : Nat := 4294967296

/-- Rotate a 32-bit word right by `n` bits. -/
def rotr (n x : Nat) : Nat := ((x >>> n) ||| (x <<< (32 - n))) % M32

/-- The 64 SHA-256 round constants (FIPS 180-4 section 4.2.2), written in
decimal. -/
def sha256K : List Nat :=
  [1116352408, 1899447441, 3049323471, 3921009573, 961987163, 1508970993,
   2453635748, 2870763221, 3624381080, 310598401, 607225278, 1426881987,
   1925078388, 2162078206, 2614888103, 3248222580, 3835390401, 4022224774,
   264347078, 604807628, 770255983, 1249150122, 1555081692, 1996064986,
   2554220882, 2821834349, 2952996808, 3210313671, 3336571891, 3584528711,
   113926993, 338241895, 666307205, 773529912, 1294757372, 1396182291,
   1695183700, 1986661051, 2177026350, 2456956037, 2730485921, 2820302411,
   3259730800, 3345764771, 3516065817, 3600352804, 4094571909, 275423344,
   430227734, 506948616, 659060556, 883997877, 958139571, 1322822218,
   1537002063, 1747873779, 1955562222, 2024104815, 2227730452, 2361852424,
   2428436474, 2756734187, 3204031479, 3329325298]

/-- Message-schedule sigma function. -/
def smallSigma0 (x : Nat) : Nat := (rotr 7 x) ^^^ (rotr 18 x) ^^^ (x >>> 3)

/-- Message-schedule sigma function. -/
def smallSigma1 (x : Nat) : Nat := (rotr 17 x) ^^^ (rotr 19 x) ^^^ (x >>> 10)

/-- Compression sigma function. -/
def bigSigma0 (x : Nat) : Nat := (rotr 2 x) ^^^ (rotr 13 x) ^^^ (rotr 22 x)

/-- Compression sigma function. -/
def bigSigma1 (x : Nat) : Nat := (rotr 6 x) ^^^ (rotr 11 x) ^^^ (rotr 25 x)

/-- Extend the message schedule. The schedule words are packed into a single
natural number with the newest word in the low 32 bits. -/
def extendW : Nat → Nat → Nat
  | 0, acc => acc
  | n + 1, acc =>
    let w2 := (acc >>> 32) % M32
    let w7 := (acc >>> 192) % M32
    let w15 := (acc >>> 448) % M32
    let w16 := (acc >>> 480) % M32
    let acc2 := (acc <<< 32) + (smallSigma1 w2 + w7 + smallSigma0 w15 + w16) % M32
    if acc2 = 0 then extendW n acc2 else extendW n acc2

/-- The eight SHA-256 working registers. -/
structure Regs where
  a : Nat
  b : Nat
  c : Nat
  d : Nat
  e : Nat
  f : Nat
  g : Nat
  h : Nat

/-- One SHA-256 compression round. -/
def sha256Round (r : Regs) (k : Nat) (w : Nat) : Regs :=
  let ch := (r.e &&& r.f) ^^^ ((M32 - 1 - r.e) &&& r.g)
  let t1 := (r.h + bigSigma1 r.e + ch + k + w) % M32
  let maj := (r.a &&& r.b) ^^^ (r.a &&& r.c) ^^^ (r.b &&& r.c)
  let t2 := (bigSigma0 r.a + maj) % M32
  ⟨(t1 + t2) % M32, r.a, r.b, r.c, (r.d + t1) % M32, r.e, r.f, r.g⟩

/-- Run the 64 rounds; `wAll` holds all 64 schedule words, word `t` in bits
`32 * (63 - t)` and up. -/
def sha256Rounds : List Nat → Nat → Regs → Regs
  | [], _, r => r
  | k :: ks, wAll, r =>
    let r2 := sha256Round r k ((wAll >>> (32 * ks.length)) % M32)
    if r2.a + r2.e = 0 then sha256Rounds ks wAll r2 else sha256Rounds ks wAll r2

/-- Compress one 512-bit block (given as a 16-word packed natural number)
into the chaining state. -/
def sha256Compress (h : Regs) (block : Nat) : Regs :=
  let w := extendW 48 block
  let r := sha256Rounds sha256K w h
  ⟨(h.a + r.a) % M32, (h.b + r.b) % M32, (h.c + r.c) % M32, (h.d + r.d) % M32,
   (h.e + r.e) % M32, (h.f + r.f) % M32, (h.g + r.g) % M32, (h.h + r.h) % M32⟩

/-- Fold the compression function over the `r` remaining blocks of the padded
message, most significant block first. -/
def sha256Blocks : Nat → Nat → Regs → Regs
  | 0, _, h => h
  | r + 1, padded, h =>
    let h2 := sha256Compress h ((padded >>> (512 * r)) &&& ((1 <<< 512) - 1))
    if h2.a + h2.b + h2.c + h2.d + h2.e + h2.f + h2.g + h2.h = 0 then sha256Blocks r padded h2
    else sha256Blocks r padded h2

/-- The SHA-256 initial hash value (FIPS 180-4 section 5.3.3), in decimal. -/
def sha256H0 : Regs :=
  ⟨1779033703, 3144134277, 1013904242, 2773480762,
   1359893119, 2600822924, 528734635, 1541459225⟩

/-- UTF-8 encoding of one character as a list of bytes. -/
def utf8Bytes (c : Char) : List Nat :=
  let n := c.toNat
  if n < 128 then [n]
  else if n < 2048 then [192 ||| (n >>> 6), 128 ||| (n &&& 63)]
  else if n < 65536 then [224 ||| (n >>> 12), 128 ||| ((n >>> 6) &&& 63), 128 ||| (n &&& 63)]
  else [240 ||| (n >>> 18), 128 ||| ((n >>> 12) &&& 63), 128 ||| ((n >>> 6) &&& 63), 128 ||| (n &&& 63)]

/-- Pack a list of bytes onto the big-endian accumulator `q`, counting bytes
in `n`. -/
def packBytes : List Nat → Nat → Nat → Nat × Nat
  | [], q, n => (q, n)
  | b :: rest, q, n =>
    if q + n = 0 then packBytes rest (q * 256 + b) (n + 1)
    else packBytes rest (q * 256 + b) (n + 1)

/-- Pack the UTF-8 bytes of the characters onto the accumulator, four
characters per recursion step to keep kernel reduction depth low. -/
def packChars : List Char → Nat → Nat → Nat × Nat
  | [], q, n => (q, n)
  | [c], q, n => packBytes (utf8Bytes c) q n
  | [c, d], q, n => packBytes (utf8Bytes c ++ utf8Bytes d) q n
  | [c, d, e], q, n => packBytes (utf8Bytes c ++ utf8Bytes d ++ utf8Bytes e) q n
  | c :: d :: e :: f :: rest, q, n =>
    let p := packBytes (utf8Bytes c ++ utf8Bytes d ++ utf8Bytes e ++ utf8Bytes f) q n
    if p.1 + p.2 = 0 then packChars rest p.1 p.2 else packChars rest p.1 p.2

/-- Pack the UTF-8 bytes of a string into (big-endian packed number, byte
length). -/
def packString (s : String) : Nat × Nat :=
  packChars s.data 0 0

/-- SHA-256 of a string: pad the UTF-8 byte sequence per FIPS 180-4 section
5.1.1 and fold the compression function over the blocks. -/
def sha256Words (s : String) : Regs :=
  let p := packString s
  let len := p.2
  let zeros := (64 - ((len + 9) % 64)) % 64
  let padded := (p.1 <<< (8 * (9 + zeros))) + (128 <<< (8 * (8 + zeros))) + len * 8
  sha256Blocks ((len + 9 + zeros) / 64) padded sha256H0

/-- Lower-case hexadecimal digit. -/
def hexDigit (n : Nat) : Char :=
  if n < 10 then Char.ofNat (48 + n) else Char.ofNat (87 + n)

/-- Eight-digit lower-case hexadecimal rendering of a 32-bit word. -/
def wordToHex (w : Nat) : List Char :=
  [hexDigit ((w >>> 28) % 16), hexDigit ((w >>> 24) % 16), hexDigit ((w >>> 20) % 16),
   hexDigit ((w >>> 16) % 16), hexDigit ((w >>> 12) % 16), hexDigit ((w >>> 8) % 16),
   hexDigit ((w >>> 4) % 16), hexDigit (w % 16)]

/-- Model of `createHash('sha256').update(s).digest('hex')`: the lower-case
hexadecimal SHA-256 digest of the UTF-8 bytes of `s`. -/
def sha256Hex (s : String) : String :=
  let r := sha256Words s
  String.mk (wordToHex r.a ++ wordToHex r.b ++ wordToHex r.c ++ wordToHex r.d ++
    wordToHex r.e ++ wordToHex r.f ++ wordToHex r.g ++ wordToHex r.h)

end Qwen

namespace Qwen

/-! ## JSON values and a model of `JSON.stringify`

JavaScript objects keep their keys in insertion order and `JSON.stringify`
serializes them in that order, so a JSON object is modelled as an ordered
association list. Numbers occurring in the engine are integers or short
decimal fractions; a decimal `m / 10 ^ e` is represented by `dec m e`.
-/

/-- A JSON value. `obj` keeps the fields in insertion order. -/
inductive Json where
  | str : String → Json
  | num : Int → Json
  | dec : Int → Nat → Json
  | bool : Bool → Json
  | null : Json
  | arr : List Json → Json
  | obj : List (String × Json) → Json

/-- Escape one character the way `JSON.stringify` does inside a string
literal. -/
def jsonEscapeChar (c : Char) : List Char :=
  if c = '"' then ['\\', '"']
  else if c = '\\' then ['\\', '\\']
  else if c = Char.ofNat 8 then ['\\', 'b']
  else if c = Char.ofNat 9 then ['\\', 't']
  else if c = Char.ofNat 10 then ['\\', 'n']
  else if c = Char.ofNat 12 then ['\\', 'f']
  else if c = Char.ofNat 13 then ['\\', 'r']
  else if c.toNat < 32 then
    ['\\', 'u', '0', '0', hexDigit (c.toNat / 16), hexDigit (c.toNat % 16)]
  else [c]

/-- Serialize a string as a JSON string literal. -/
def jsonQuote (s : String) : String :=
  "\"" ++ String.mk (s.data.flatMap jsonEscapeChar) ++ "\""

/-- Digits of a natural number (used for decimal rendering). -/
def natDigits : Nat → List Char → List Char
  | 0, acc => acc
  | n + 1, acc => natDigits ((n + 1) / 10) (Char.ofNat (48 + (n + 1) % 10) :: acc)

/-- Render the decimal number `m / 10 ^ e` the way JavaScript prints it
(for the fraction values appearing in this engine, for example `0.2`). -/
def decToString (m : Int) (e : Nat) : String :=
  let sign := if m < 0 then "-" else ""
  let ds0 := natDigits m.natAbs []
  let ds := if ds0 = [] then ['0'] else ds0
  let ds2 := if ds.length ≤ e then List.replicate (e + 1 - ds.length) '0' ++ ds else ds
  sign ++ String.mk (ds2.take (ds2.length - e)) ++
    (if e = 0 then "" else "." ++ String.mk (ds2.drop (ds2.length - e)))

mutual

/-- Model of `JSON.stringify` (no spacing, object keys in insertion order,
which is how the version hash input is produced in the source). -/
def stringifyJson : Json → String
  | .str s => jsonQuote s
  | .num n => toString n
  | .dec m e => decToString m e
  | .bool b => if b then "true" else "false"
  | .null => "null"
  | .arr l => "[" ++ stringifyArr l ++ "]"
  | .obj l => "\x7b" ++ stringifyFields l ++ "\x7d"

/-- Comma-separated serialization of array elements. -/
def stringifyArr : List Json → String
  | [] => ""
  | [x] => stringifyJson x
  | x :: y :: xs => stringifyJson x ++ "," ++ stringifyArr (y :: xs)

/-- Comma-separated serialization of object fields, in insertion order. -/
def stringifyFields : List (String × Json) → String
  | [] => ""
  | [(k, v)] => jsonQuote k ++ ":" ++ stringifyJson v
  | (k, v) :: y :: xs => jsonQuote k ++ ":" ++ stringifyJson v ++ "," ++ stringifyFields (y :: xs)

end

mutual

/-- Decidable equality for JSON values. -/
def jsonDecEq : (a b : Json) → Decidable (a = b)
  | .str a, .str b =>
    match decEq a b with
    | isTrue h => isTrue (by rw [h])
    | isFalse h => isFalse (fun he => h (by cases he; rfl))
  | .num a, .num b =>
    match decEq a b with
    | isTrue h => isTrue (by rw [h])
    | isFalse h => isFalse (fun he => h (by cases he; rfl))
  | .dec m1 e1, .dec m2 e2 =>
    match decEq m1 m2, decEq e1 e2 with
    | isTrue h1, isTrue h2 => isTrue (by rw [h1, h2])
    | isFalse h1, _ => isFalse (fun he => h1 (by cases he; rfl))
    | _, isFalse h2 => isFalse (fun he => h2 (by cases he; rfl))
  | .bool a, .bool b =>
    match decEq a b with
    | isTrue h => isTrue (by rw [h])
    | isFalse h => isFalse (fun he => h (by cases he; rfl))
  | .null, .null => isTrue rfl
  | .arr a, .arr b =>
    match jsonArrDecEq a b with
    | isTrue h => isTrue (by rw [h])
    | isFalse h => isFalse (fun he => h (by cases he; rfl))
  | .obj a, .obj b =>
    match jsonObjDecEq a b with
    | isTrue h => isTrue (by rw [h])
    | isFalse h => isFalse (fun he => h (by cases he; rfl))
  | .str _, .num _ => isFalse nofun
  | .str _, .dec _ _ => isFalse nofun
  | .str _, .bool _ => isFalse nofun
  | .str _, .null => isFalse nofun
  | .str _, .arr _ => isFalse nofun
  | .str _, .obj _ => isFalse nofun
  | .num _, .str _ => isFalse nofun
  | .num _, .dec _ _ => isFalse nofun
  | .num _, .bool _ => isFalse nofun
  | .num _, .null => isFalse nofun
  | .num _, .arr _ => isFalse nofun
  | .num _, .obj _ => isFalse nofun
  | .dec _ _, .str _ => isFalse nofun
  | .dec _ _, .num _ => isFalse nofun
  | .dec _ _, .bool _ => isFalse nofun
  | .dec _ _, .null => isFalse nofun
  | .dec _ _, .arr _ => isFalse nofun
  | .dec _ _, .obj _ => isFalse nofun
  | .bool _, .str _ => isFalse nofun
  | .bool _, .num _ => isFalse nofun
  | .bool _, .dec _ _ => isFalse nofun
  | .bool _, .null => isFalse nofun
  | .bool _, .arr _ => isFalse nofun
  | .bool _, .obj _ => isFalse nofun
  | .null, .str _ => isFalse nofun
  | .null, .num _ => isFalse nofun
  | .null, .dec _ _ => isFalse nofun
  | .null, .bool _ => isFalse nofun
  | .null, .arr _ => isFalse nofun
  | .null, .obj _ => isFalse nofun
  | .arr _, .str _ => isFalse nofun
  | .arr _, .num _ => isFalse nofun
  | .arr _, .dec _ _ => isFalse nofun
  | .arr _, .bool _ => isFalse nofun
  | .arr _, .null => isFalse nofun
  | .arr _, .obj _ => isFalse nofun
  | .obj _, .str _ => isFalse nofun
  | .obj _, .num _ => isFalse nofun
  | .obj _, .dec _ _ => isFalse nofun
  | .obj _, .bool _ => isFalse nofun
  | .obj _, .null => isFalse nofun
  | .obj _, .arr _ => isFalse nofun

/-- Decidable equality for JSON arrays. -/
def jsonArrDecEq : (a b : List Json) → Decidable (a = b)
  | [], [] => isTrue rfl
  | [], _ :: _ => isFalse nofun
  | _ :: _, [] => isFalse nofun
  | x :: xs, y :: ys =>
    match jsonDecEq x y, jsonArrDecEq xs ys with
    | isTrue h1, isTrue h2 => isTrue (by rw [h1, h2])
    | isFalse h1, _ => isFalse (fun he => h1 (by cases he; rfl))
    | _, isFalse h2 => isFalse (fun he => h2 (by cases he; rfl))

/-- Decidable equality for JSON object field lists. -/
def jsonObjDecEq : (a b : List (String × Json)) → Decidable (a = b)
  | [], [] => isTrue rfl
  | [], _ :: _ => isFalse nofun
  | _ :: _, [] => isFalse nofun
  | (k1, v1) :: xs, (k2, v2) :: ys =>
    match decEq k1 k2, jsonDecEq v1 v2, jsonObjDecEq xs ys with
    | isTrue h1, isTrue h2, isTrue h3 => isTrue (by rw [h1, h2, h3])
    | isFalse h1, _, _ => isFalse (fun he => h1 (by cases he; rfl))
    | _, isFalse h2, _ => isFalse (fun he => h2 (by cases he; rfl))
    | _, _, isFalse h3 => isFalse (fun he => h3 (by cases he; rfl))

end

instance : DecidableEq Json := jsonDecEq

end Qwen

namespace Qwen

/-! ## The generation configuration and catalog entry data model

`GenerationConfig` (spec section 3): independently meaningful scalar fields
plus the three atomic object-valued fields `samplingParams`, `customHeaders`
and `extra_body`, each present or absent as a whole. `ModelConfig` is the
catalog entry type (`ProviderModelConfig` in the source): `id` plus optional
`name`, `description`, `baseUrl`, `envKey` and `generationConfig`.
(The optional `capabilities` metadata field is not consulted by any of the
operations verified here and is omitted.)
-/

/-- A generation configuration: scalar fields and three atomic object
fields. An atomic field is taken wholesale from one source or absent. -/
structure GenerationConfig where
  timeout : Option Nat := none
  maxRetries : Option Nat := none
  contextWindowSize : Option Nat := none
  schemaCompliance : Option String := none
  samplingParams : Option Json := none
  customHeaders : Option Json := none
  extra_body : Option Json := none
deriving DecidableEq

/-- A provider catalog entry (`ProviderModelConfig`). -/
structure ModelConfig where
  id : String
  name : Option String := none
  description : Option String := none
  baseUrl : Option String := none
  envKey : Option String := none
  generationConfig : Option GenerationConfig := none
deriving DecidableEq

/-! ## The coding-plan managed template module

Translated from the `codingPlan` TypeScript source: regions, the unified
credential environment key, the two generated templates, the version hash and
the signature predicate `isCodingPlanConfig`.
-/

/-- Coding plan regions. -/
inductive CodingPlanRegion where
  | CHINA : CodingPlanRegion
  | GLOBAL : CodingPlanRegion
deriving DecidableEq

/-- Environment variable key for storing the coding plan API key; unified
for both regions since they are mutually exclusive. -/
def CODING_PLAN_ENV_KEY : String := "BAILIAN_CODING_PLAN_API_KEY"

/-- The mainland China coding-plan endpoint. -/
def chinaCodingBaseUrl : String := "https://coding.dashscope.aliyuncs.com/v1"

/-- The international coding-plan endpoint. -/
def globalCodingBaseUrl : String := "https://coding-intl.dashscope.aliyuncs.com/v1"

/-- Computes the version hash for a coding plan template: SHA-256 of the
JSON-serialized template (`JSON.stringify` followed by `sha256` in the
source). The argument is the template as the JSON value the running program
passes to `JSON.stringify`. -/
def computeCodingPlanVersion (template : Json) : String :=
  sha256Hex (stringifyJson template)

/-- Generate the complete coding plan template for a region. The entries are
written out literally, mirroring the two literal arrays of the source. -/
def generateCodingPlanTemplate : CodingPlanRegion → List ModelConfig
  | .CHINA =>
  [{ id := "qwen3.5-plus",
     name := some "[Bailian Coding Plan] qwen3.5-plus",
     baseUrl := some "https://coding.dashscope.aliyuncs.com/v1",
     envKey := some CODING_PLAN_ENV_KEY,
     generationConfig := some { extra_body := some (.obj [("enable_thinking", .bool true)]), contextWindowSize := some 1000000 } },
   { id := "qwen3-coder-plus",
     name := some "[Bailian Coding Plan] qwen3-coder-plus",
     baseUrl := some "https://coding.dashscope.aliyuncs.com/v1",
     envKey := some CODING_PLAN_ENV_KEY,
     generationConfig := some { contextWindowSize := some 1000000 } },
   { id := "qwen3-coder-next",
     name := some "[Bailian Coding Plan] qwen3-coder-next",
     baseUrl := some "https://coding.dashscope.aliyuncs.com/v1",
     envKey := some CODING_PLAN_ENV_KEY,
     generationConfig := some { contextWindowSize := some 262144 } },
   { id := "qwen3-max-2026-01-23",
     name := some "[Bailian Coding Plan] qwen3-max-2026-01-23",
     baseUrl := some "https://coding.dashscope.aliyuncs.com/v1",
     envKey := some CODING_PLAN_ENV_KEY,
     generationConfig := some { extra_body := some (.obj [("enable_thinking", .bool true)]), contextWindowSize := some 262144 } },
   { id := "glm-4.7",
     name := some "[Bailian Coding Plan] glm-4.7",
     baseUrl := some "https://coding.dashscope.aliyuncs.com/v1",
     envKey := some CODING_PLAN_ENV_KEY,
     generationConfig := some { extra_body := some (.obj [("enable_thinking", .bool true)]), contextWindowSize := some 202752 } },
   { id := "glm-5",
     name := some "[Bailian Coding Plan] glm-5",
     baseUrl := some "https://coding.dashscope.aliyuncs.com/v1",
     envKey := some CODING_PLAN_ENV_KEY,
     generationConfig := some { extra_body := some (.obj [("enable_thinking", .bool true)]), contextWindowSize := some 202752 } },
   { id := "MiniMax-M2.5",
     name := some "[Bailian Coding Plan] MiniMax-M2.5",
     baseUrl := some "https://coding.dashscope.aliyuncs.com/v1",
     envKey := some CODING_PLAN_ENV_KEY,
     generationConfig := some { extra_body := some (.obj [("enable_thinking", .bool true)]), contextWindowSize := some 1000000 } },
   { id := "kimi-k2.5",
     name := some "[Bailian Coding Plan] kimi-k2.5",
     baseUrl := some "https://coding.dashscope.aliyuncs.com/v1",
     envKey := some CODING_PLAN_ENV_KEY,
     generationConfig := some { extra_body := some (.obj [("enable_thinking", .bool true)]), contextWindowSize := some 262144 } }]
  | .GLOBAL =>
  [{ id := "qwen3.5-plus",
     name := some "[Bailian Coding Plan for Global/Intl] qwen3.5-plus",
     baseUrl := some "https://coding-intl.dashscope.aliyuncs.com/v1",
     envKey := some CODING_PLAN_ENV_KEY,
     generationConfig := some { extra_body := some (.obj [("enable_thinking", .bool true)]), contextWindowSize := some 1000000 } },
   { id := "qwen3-coder-plus",
     name := some "[Bailian Coding Plan for Global/Intl] qwen3-coder-plus",
     baseUrl := some "https://coding-intl.dashscope.aliyuncs.com/v1",
     envKey := some CODING_PLAN_ENV_KEY,
     generationConfig := some { contextWindowSize := some 1000000 } },
   { id := "qwen3-coder-next",
     name := some "[Bailian Coding Plan for Global/Intl] qwen3-coder-next",
     baseUrl := some "https://coding-intl.dashscope.aliyuncs.com/v1",
     envKey := some CODING_PLAN_ENV_KEY,
     generationConfig := some { contextWindowSize := some 262144 } },
   { id := "qwen3-max-2026-01-23",
     name := some "[Bailian Coding Plan for Global/Intl] qwen3-max-2026-01-23",
     baseUrl := some "https://coding-intl.dashscope.aliyuncs.com/v1",
     envKey := some CODING_PLAN_ENV_KEY,
     generationConfig := some { extra_body := some (.obj [("enable_thinking", .bool true)]), contextWindowSize := some 262144 } },
   { id := "glm-4.7",
     name := some "[Bailian Coding Plan for Global/Intl] glm-4.7",
     baseUrl := some "https://coding-intl.dashscope.aliyuncs.com/v1",
     envKey := some CODING_PLAN_ENV_KEY,
     generationConfig := some { extra_body := some (.obj [("enable_thinking", .bool true)]), contextWindowSize := some 202752 } },
   { id := "glm-5",
     name := some "[Bailian Coding Plan for Global/Intl] glm-5",
     baseUrl := some "https://coding-intl.dashscope.aliyuncs.com/v1",
     envKey := some CODING_PLAN_ENV_KEY,
     generationConfig := some { extra_body := some (.obj [("enable_thinking", .bool true)]), contextWindowSize := some 202752 } },
   { id := "MiniMax-M2.5",
     name := some "[Bailian Coding Plan for Global/Intl] MiniMax-M2.5",
     baseUrl := some "https://coding-intl.dashscope.aliyuncs.com/v1",
     envKey := some CODING_PLAN_ENV_KEY,
     generationConfig := some { extra_body := some (.obj [("enable_thinking", .bool true)]), contextWindowSize := some 1000000 } },
   { id := "kimi-k2.5",
     name := some "[Bailian Coding Plan for Global/Intl] kimi-k2.5",
     baseUrl := some "https://coding-intl.dashscope.aliyuncs.com/v1",
     envKey := some CODING_PLAN_ENV_KEY,
     generationConfig := some { extra_body := some (.obj [("enable_thinking", .bool true)]), contextWindowSize := some 262144 } }]

/-- The generation configuration of a template entry as the JSON object the
source literals construct: `extra_body` first (when present), then
`contextWindowSize`, matching the key insertion order of the literals. -/
def codingPlanGenConfigToJson (g : GenerationConfig) : Json :=
  .obj ((match g.extra_body with
          | some eb => [("extra_body", eb)]
          | none => []) ++
        (match g.contextWindowSize with
          | some n => [("contextWindowSize", Json.num (n : Int))]
          | none => []))

/-- A template entry as the JSON object the source literals construct, with
keys in the insertion order `id`, `name`, `baseUrl`, `envKey`,
`generationConfig`, absent optional fields omitted as `JSON.stringify`
does for undefined properties. -/
def codingPlanEntryToJson (e : ModelConfig) : Json :=
  .obj ([("id", Json.str e.id)] ++
    (match e.name with | some v => [("name", Json.str v)] | none => []) ++
    (match e.baseUrl with | some v => [("baseUrl", Json.str v)] | none => []) ++
    (match e.envKey with | some v => [("envKey", Json.str v)] | none => []) ++
    (match e.generationConfig with
      | some g => [("generationConfig", codingPlanGenConfigToJson g)]
      | none => []))

/-- The generated template of a region as the JSON array value that the
source passes to `computeCodingPlanVersion`. -/
def codingPlanTemplateJson (region : CodingPlanRegion) : Json :=
  .arr ((generateCodingPlanTemplate region).map codingPlanEntryToJson)

/-- The result record of `getCodingPlanConfig`. -/
structure CodingPlanConfig where
  template : List ModelConfig
  baseUrl : String
  regionName : String
  version : String

/-- Get the complete configuration for a region: template, endpoint, display
name and the version hash of the generated template. -/
def getCodingPlanConfig (region : CodingPlanRegion) : CodingPlanConfig :=
  { template := generateCodingPlanTemplate region,
    baseUrl :=
      match region with
      | .CHINA => chinaCodingBaseUrl
      | .GLOBAL => globalCodingBaseUrl,
    regionName :=
      match region with
      | .CHINA => "Coding Plan (Bailian, China)"
      | .GLOBAL => "Coding Plan (Bailian, Global/Intl)",
    version := computeCodingPlanVersion (codingPlanTemplateJson region) }

/-- All coding plan base URLs (used for filtering and config detection). -/
def getCodingPlanBaseUrls : List String :=
  [chinaCodingBaseUrl, globalCodingBaseUrl]

/-- Check if a config belongs to the coding plan (any region): returns the
region when the unified environment key and a known endpoint match, `none`
otherwise. A JavaScript falsy check rejects absent or empty arguments first,
as in the source. -/
def isCodingPlanConfig (baseUrl envKey : Option String) : Option CodingPlanRegion :=
  match baseUrl, envKey with
  | some bu, some ek =>
    if bu = "" ∨ ek = "" then none
    else if ek ≠ CODING_PLAN_ENV_KEY then none
    else if bu = chinaCodingBaseUrl then some .CHINA
    else if bu = globalCodingBaseUrl then some .GLOBAL
    else none
  | _, _ => none

/-- Get the region from a base URL (`null` rendered as `none`). -/
def getRegionFromBaseUrl (baseUrl : Option String) : Option CodingPlanRegion :=
  match baseUrl with
  | some bu =>
    if bu = "" then none
    else if bu = chinaCodingBaseUrl then some .CHINA
    else if bu = globalCodingBaseUrl then some .GLOBAL
    else none
  | none => none

end Qwen

namespace Qwen

/-! ## The CLI availableModels module

Translated from the `availableModels` TypeScript source: the CLI-side model
list per authentication type, with the config registry preferred and
environment-variable fallbacks used only when no config is supplied.
-/

/-- The supported authentication types. -/
inductive AuthType where
  | QWEN_OAUTH : AuthType
  | USE_OPENAI : AuthType
  | USE_ANTHROPIC : AuthType
  | USE_GEMINI : AuthType
  | USE_VERTEX_AI : AuthType
deriving DecidableEq

/-- A model description as produced by the core config registry
(`CoreAvailableModel`); `capabilitiesVision` stands for the nested
`capabilities.vision` field. -/
structure CoreAvailableModel where
  id : String
  label : String
  description : Option String := none
  isVision : Option Bool := none
  capabilitiesVision : Option Bool := none
deriving DecidableEq

/-- A model entry of the CLI selection list (`AvailableModel`). -/
structure AvailableModel where
  id : String
  label : String
  description : Option String := none
  isVision : Option Bool := none
deriving DecidableEq

/-- Modelled from the spec: `QWEN_OAUTH_MODELS` is declared in the core
package, which is not among the provided sources; the tests accompanying the
source pin it to a single entry with id `coder-model` and vision
capability. -/
def QWEN_OAUTH_MODELS : List CoreAvailableModel :=
  [{ id := "coder-model", capabilitiesVision := some true, label := "coder-model" }]

/-- The cached CLI rendering of the hard-coded Qwen OAuth models. -/
def CACHED_QWEN_OAUTH_MODELS : List AvailableModel :=
  QWEN_OAUTH_MODELS.map (fun m =>
    { id := m.id,
      label := m.label,
      description := m.description,
      isVision := some (m.capabilitiesVision.getD false) })

/-- Accessor for the cached Qwen OAuth models. -/
def getQwenOAuthModels : List AvailableModel := CACHED_QWEN_OAUTH_MODELS

/-- Get available Qwen models (a fresh copy of the cached list). -/
def getFilteredQwenModels : List AvailableModel := getQwenOAuthModels

/-- JavaScript whitespace test for the characters relevant to `trim`. -/
def isJsSpace (c : Char) : Bool :=
  c = ' ' || c = Char.ofNat 9 || c = Char.ofNat 10 || c = Char.ofNat 11 ||
  c = Char.ofNat 12 || c = Char.ofNat 13

/-- Model of the JavaScript `String.prototype.trim`: strip leading and
trailing whitespace (kept executable by kernel reduction, unlike the
built-in `String.trim`). -/
def jsTrim (s : String) : String :=
  String.mk (((s.data.dropWhile isJsSpace).reverse.dropWhile isJsSpace).reverse)

/-- The environment as read by this module. -/
structure Env where
  OPENAI_MODEL : Option String := none
  ANTHROPIC_MODEL : Option String := none
deriving DecidableEq

/-- The single OpenAI model configured through the `OPENAI_MODEL`
environment variable, if set and nonempty after trimming. -/
def getOpenAIAvailableModelFromEnv (env : Env) : Option AvailableModel :=
  match env.OPENAI_MODEL with
  | none => none
  | some s =>
    let id := jsTrim s
    if id = "" then none
    else some { id := id, label := id,
                description := some "Configured via OPENAI_MODEL environment variable" }

/-- The single Anthropic model configured through the `ANTHROPIC_MODEL`
environment variable, if set and nonempty after trimming. -/
def getAnthropicAvailableModelFromEnv (env : Env) : Option AvailableModel :=
  match env.ANTHROPIC_MODEL with
  | none => none
  | some s =>
    let id := jsTrim s
    if id = "" then none
    else some { id := id, label := id,
                description := some "Configured via ANTHROPIC_MODEL environment variable" }

/-- Convert a core model to the CLI format. -/
def convertCoreModelToCliModel (coreModel : CoreAvailableModel) : AvailableModel :=
  { id := coreModel.id,
    label := coreModel.label,
    description := coreModel.description,
    isVision := some ((coreModel.isVision.orElse (fun _ => coreModel.capabilitiesVision)).getD false) }

/-- The Config collaborator as consulted by this module: its model registry
accessor, which may throw (rendered as `Except`). -/
structure Config where
  getAvailableModelsForAuthType : AuthType → Except String (List CoreAvailableModel)

/-- Get available models for the given authType. If a Config object is
provided, its registry is consulted: a nonempty list is converted and
returned, an empty list or a thrown error yields the empty list, and the
environment fallback is never consulted. Without a config, the
environment-variable fallback applies per authentication type. -/
def getAvailableModelsForAuthType (authType : AuthType) (config : Option Config) (env : Env) :
    List AvailableModel :=
  match config with
  | some cfg =>
    match cfg.getAvailableModelsForAuthType authType with
    | .ok models => if models.length > 0 then models.map convertCoreModelToCliModel else []
    | .error _ => []
  | none =>
    match authType with
    | .QWEN_OAUTH => getQwenOAuthModels
    | .USE_OPENAI =>
      match getOpenAIAvailableModelFromEnv env with
      | some m => [m]
      | none => []
    | .USE_ANTHROPIC =>
      match getAnthropicAvailableModelFromEnv env with
      | some m => [m]
      | none => []
    | _ => []

end Qwen

namespace Qwen

/-! ## FieldResolver and GenerationConfigMerger

Modelled from the spec (sections 4.2 and 4.3): the per-field layered
resolver and the impermeable-layer rule for generation configurations. The
implementation of these components is not among the provided sources; the
repository documentation describes the same behavior.
-/

/-- Modelled from the spec: FieldResolver. Walks the layers in descending
priority and returns the value of the first layer where the field is
present; a layer that sets a field to an explicit empty value still counts
as present. -/
def resolveField (layers : List (Option α)) : Option α :=
  layers.findSome? id

/-- Modelled from the spec: per-field layered resolution of a generation
configuration for a non-catalog (runtime) selection. Every scalar field is
resolved independently across CLI, environment, settings and defaults, and
each atomic object field is taken as a whole from the first layer that
defines it. -/
def resolveGenerationConfig (cli envL settings dflt : GenerationConfig) : GenerationConfig :=
  { timeout := resolveField [cli.timeout, envL.timeout, settings.timeout, dflt.timeout],
    maxRetries := resolveField [cli.maxRetries, envL.maxRetries, settings.maxRetries, dflt.maxRetries],
    contextWindowSize := resolveField
      [cli.contextWindowSize, envL.contextWindowSize, settings.contextWindowSize, dflt.contextWindowSize],
    schemaCompliance := resolveField
      [cli.schemaCompliance, envL.schemaCompliance, settings.schemaCompliance, dflt.schemaCompliance],
    samplingParams := resolveField
      [cli.samplingParams, envL.samplingParams, settings.samplingParams, dflt.samplingParams],
    customHeaders := resolveField
      [cli.customHeaders, envL.customHeaders, settings.customHeaders, dflt.customHeaders],
    extra_body := resolveField [cli.extra_body, envL.extra_body, settings.extra_body, dflt.extra_body] }

/-- Modelled from the spec: GenerationConfigMerger. For a catalog-backed
selection the catalog entry generationConfig is the output verbatim (the
impermeable sealed package; fields the entry leaves out stay absent); for a
runtime selection the layers fall through per field. -/
def mergeGenerationConfig :
    Option GenerationConfig → GenerationConfig → GenerationConfig → GenerationConfig →
    GenerationConfig → GenerationConfig
  | some provider, _, _, _, _ => provider
  | none, cli, envL, settings, dflt => resolveGenerationConfig cli envL settings dflt

/-! ## ProviderCatalog registration

Modelled from the spec (section 4.1): per-bucket registration with
first-occurrence-wins de-duplication and non-fatal signals.
-/

/-- A catalog construction signal (collected, never thrown). -/
inductive CatalogSignal where
  | DuplicateModelId (id : String) : CatalogSignal
  | UnknownAuthType (key : String) : CatalogSignal
deriving DecidableEq

/-- The ids present in a bucket, in order. -/
def bucketIds (bucket : List ModelConfig) : List String :=
  bucket.map (fun e => e.id)

/-- Modelled from the spec: ProviderCatalog.register restricted to one
authentication-type bucket. Each entry whose id already occurs in the bucket
is skipped with a non-fatal DuplicateModelId signal; other entries are
appended in input order. -/
def register (bucket : List ModelConfig) : List ModelConfig → List ModelConfig × List CatalogSignal
  | [] => (bucket, [])
  | e :: rest =>
    if e.id ∈ bucketIds bucket then
      let p := register bucket rest
      (p.1, .DuplicateModelId e.id :: p.2)
    else
      register (bucket ++ [e]) rest

/-- Fold a sequence of register calls over one bucket, starting from a given
bucket and discarding the signals. -/
def registerAll (bucket : List ModelConfig) (batches : List (List ModelConfig)) : List ModelConfig :=
  batches.foldl (fun b es => (register b es).1) bucket

/-! ## RuntimeModelRegistry

Modelled from the spec (sections 3 and 4.4): capture of complete ad-hoc
configurations as snapshots addressed by a synthetic key derived from the
authentication type and the model id.
-/

/-- The output of a resolution request (spec section 3). -/
structure ResolvedConfiguration where
  authType : String
  model : String
  apiKey : Option String := none
  baseUrl : Option String := none
  apiKeyEnvKey : Option String := none
  proxy : Option String := none
  generationConfig : GenerationConfig := {}
deriving DecidableEq

/-- Modelled from the spec: the synthetic snapshot address derived
deterministically from the authentication type and the model id. -/
def syntheticAddress (authType model : String) : String :=
  "$runtime|" ++ authType ++ "|" ++ model

/-- Modelled from the spec: the completeness predicate. A candidate is
complete when the authentication type, the model and a resolvable credential
are all present. -/
def isCompleteRuntimeConfig (c : ResolvedConfiguration) : Bool :=
  (c.authType != "") && (c.model != "") && c.apiKey.isSome

/-- The runtime model registry: snapshots keyed by the synthetic address. -/
abbrev RuntimeRegistry : Type := List (String × ResolvedConfiguration)

/-- Insert or overwrite the value at a key, keeping the position of an
existing binding and appending a fresh one. -/
def upsert (k : String) (v : ResolvedConfiguration) : RuntimeRegistry → RuntimeRegistry
  | [] => [(k, v)]
  | (k2, v2) :: rest => if k2 = k then (k, v) :: rest else (k2, v2) :: upsert k v rest

/-- Modelled from the spec: RuntimeModelRegistry.observe. A catalog-backed
candidate is ignored; a complete ad-hoc candidate is upserted at its
synthetic address, overwriting any prior snapshot there; an incomplete
candidate is never captured. -/
def observe (reg : RuntimeRegistry) (c : ResolvedConfiguration) (isCatalogBacked : Bool) :
    RuntimeRegistry :=
  if isCatalogBacked then reg
  else if isCompleteRuntimeConfig c then upsert (syntheticAddress c.authType c.model) c reg
  else reg

/-- Modelled from the spec: RuntimeModelRegistry.lookup by synthetic
address. -/
def lookupSnapshot (reg : RuntimeRegistry) (addr : String) : Option ResolvedConfiguration :=
  (reg.find? (fun p => p.1 == addr)).map (fun p => p.2)

/-! ## ManagedTemplateUpdater

Modelled from the spec (section 4.5) on top of the source signature
predicate `isCodingPlanConfig`: template update application replaces exactly
the entries recognized as managed and is all-or-nothing.
-/

/-- An entry is recognized as belonging to the managed family of a region
when the source signature predicate returns that region. -/
def codingPlanEntryMatches (region : CodingPlanRegion) (e : ModelConfig) : Bool :=
  decide (isCodingPlanConfig e.baseUrl e.envKey = some region)

/-- Modelled from the spec: applyUpdate on one bucket. Entries matching the
managed family signature are removed, all other entries are kept unchanged,
and the new template entries are inserted in template order. -/
def applyUpdate (bucket : List ModelConfig) (region : CodingPlanRegion)
    (template : List ModelConfig) : List ModelConfig :=
  (bucket.filter (fun e => !(codingPlanEntryMatches region e))) ++ template

/-- Modelled from the spec: after an update the previous selection is kept
when it still exists in the updated bucket and otherwise falls back to the
first entry of the template. -/
def reselectAfterUpdate (selected : String) (newBucket template : List ModelConfig) :
    Option String :=
  if selected ∈ bucketIds newBucket then some selected
  else template.head?.map (fun e => e.id)

/-- The updater state for one template family. -/
inductive UpdateState where
  | UpToDate (token : String) : UpdateState
  | UpdateAvailable (token : String) : UpdateState
deriving DecidableEq

/-- Modelled from the spec: detectUpdate compares the installed version
token with the latest template token. -/
def detectUpdate (installedVersion latestToken : String) : UpdateState :=
  if installedVersion = latestToken then .UpToDate installedVersion
  else .UpdateAvailable latestToken

/-- The updater as a whole: the catalog bucket it manages and its state. -/
structure UpdaterState where
  bucket : List ModelConfig
  state : UpdateState
deriving DecidableEq

/-- Modelled from the spec: a malformed template (no entries, or an entry
without an id) makes the construction of the replacement bucket fail. -/
def validTemplate (template : List ModelConfig) : Bool :=
  !template.isEmpty && template.all (fun e => e.id != "")

/-- Modelled from the spec: construct the full replacement bucket, or fail
without producing anything (TemplateUpdateFailed). -/
def buildReplacementBucket (bucket : List ModelConfig) (region : CodingPlanRegion)
    (template : List ModelConfig) : Except String (List ModelConfig) :=
  if validTemplate template then .ok (applyUpdate bucket region template)
  else .error "TemplateUpdateFailed"

/-- Modelled from the spec: the Updating transition. On success the fully
constructed replacement bucket is published and the state becomes UpToDate
with the new token; on failure the whole state, bucket included, is left
unchanged. -/
def tryApplyUpdate (s : UpdaterState) (region : CodingPlanRegion)
    (template : List ModelConfig) (latestToken : String) : UpdaterState :=
  match buildReplacementBucket s.bucket region template with
  | .ok b => { bucket := b, state := .UpToDate latestToken }
  | .error _ => s

end Qwen

namespace Qwen

/-! ## Helper definitions and lemmas for the theorems -/

/-- The endpoint of a region. -/
def regionBaseUrl : CodingPlanRegion → String
  | .CHINA => chinaCodingBaseUrl
  | .GLOBAL => globalCodingBaseUrl

/-- C4: for every baseUrl and envKey, isCodingPlanConfig returns a region
exactly when the envKey is the unified coding-plan key and the baseUrl is
that region's endpoint; in every other case, including absent arguments, it
returns no region. Recognition therefore depends on the two arguments
alone. -/
theorem claim_C4_signature_predicate :
    ∀ (baseUrl envKey : Option String) (r : CodingPlanRegion),
      isCodingPlanConfig baseUrl envKey = some r ↔
        (envKey = some CODING_PLAN_ENV_KEY ∧ baseUrl = some (regionBaseUrl r)) := by
  intro b e r
  cases b with
  | none => cases e <;> simp [isCodingPlanConfig]
  | some bu =>
    cases e with
    | none => simp [isCodingPlanConfig]
    | some ek =>
      by_cases hek : ek = CODING_PLAN_ENV_KEY
      · subst hek
        by_cases h1 : bu = chinaCodingBaseUrl
        · subst h1; cases r <;> decide
        · by_cases h2 : bu = globalCodingBaseUrl
          · subst h2; cases r <;> decide
          · simp only [chinaCodingBaseUrl] at h1
            simp only [globalCodingBaseUrl] at h2
            cases r <;>
              simp [isCodingPlanConfig, h1, h2, regionBaseUrl, CODING_PLAN_ENV_KEY,
                chinaCodingBaseUrl, globalCodingBaseUrl]
      · cases r <;> simp [isCodingPlanConfig, hek]

/-- C9: every entry of a generated coding-plan template carries the unified
environment key and is recognized by the signature predicate as belonging to
its own region. -/
theorem claim_C9_template_roundtrip :
    ∀ (r : CodingPlanRegion), ∀ e ∈ generateCodingPlanTemplate r,
      e.envKey = some CODING_PLAN_ENV_KEY ∧
      isCodingPlanConfig e.baseUrl e.envKey = some r := by
  intro r
  cases r <;> decide

/-- Witness for C9 at the first entry of the China template. -/
theorem claim_C9_template_roundtrip_witness :
    ∃ e, e ∈ generateCodingPlanTemplate CodingPlanRegion.CHINA ∧
      e.envKey = some CODING_PLAN_ENV_KEY ∧
      isCodingPlanConfig e.baseUrl e.envKey = some CodingPlanRegion.CHINA :=
  ⟨(generateCodingPlanTemplate CodingPlanRegion.CHINA).headD { id := "" },
    by decide,
    claim_C9_template_roundtrip CodingPlanRegion.CHINA
      ((generateCodingPlanTemplate CodingPlanRegion.CHINA).headD { id := "" })
      (by decide)⟩

end Qwen

namespace Qwen

/-- C10: with a Config supplied, getAvailableModelsForAuthType returns the
converted registry list when it is nonempty and the empty list otherwise; a
registry exception becomes the empty list; the result never depends on the
environment. The environment-variable fallback applies only without a
Config. -/
theorem claim_C10_config_registry_no_env_fallback :
    (∀ (a : AuthType) (cfg : Config) (env env2 : Env),
      getAvailableModelsForAuthType a (some cfg) env =
        getAvailableModelsForAuthType a (some cfg) env2) ∧
    (∀ (a : AuthType) (cfg : Config) (env : Env) (ms : List CoreAvailableModel),
      cfg.getAvailableModelsForAuthType a = .ok ms → ms ≠ [] →
        getAvailableModelsForAuthType a (some cfg) env = ms.map convertCoreModelToCliModel) ∧
    (∀ (a : AuthType) (cfg : Config) (env : Env),
      cfg.getAvailableModelsForAuthType a = .ok [] →
        getAvailableModelsForAuthType a (some cfg) env = []) ∧
    (∀ (a : AuthType) (cfg : Config) (env : Env) (err : String),
      cfg.getAvailableModelsForAuthType a = .error err →
        getAvailableModelsForAuthType a (some cfg) env = []) ∧
    (∀ (env : Env) (m : AvailableModel),
      getOpenAIAvailableModelFromEnv env = some m →
        getAvailableModelsForAuthType AuthType.USE_OPENAI none env = [m]) ∧
    (∀ (env : Env) (m : AvailableModel),
      getAnthropicAvailableModelFromEnv env = some m →
        getAvailableModelsForAuthType AuthType.USE_ANTHROPIC none env = [m]) := by
  refine ⟨?_, ?_, ?_, ?_, ?_, ?_⟩
  · intro a cfg env env2
    simp [getAvailableModelsForAuthType]
  · intro a cfg env ms hok hne
    simp [getAvailableModelsForAuthType, hok, List.length_pos.mpr hne]
  · intro a cfg env hok
    simp [getAvailableModelsForAuthType, hok]
  · intro a cfg env err herr
    simp [getAvailableModelsForAuthType, herr]
  · intro env m hm
    simp [getAvailableModelsForAuthType, hm]
  · intro env m hm
    simp [getAvailableModelsForAuthType, hm]

/-- Witness for C10 at a concrete config whose registry throws, a concrete
nonempty registry, and a concrete environment model. -/
theorem claim_C10_witness :
    (getAvailableModelsForAuthType AuthType.USE_OPENAI
        (some { getAvailableModelsForAuthType := fun _ => .error "Registry not initialized" })
        { OPENAI_MODEL := some "fallback-model" } = []) ∧
    (getAvailableModelsForAuthType AuthType.USE_OPENAI
        (some { getAvailableModelsForAuthType := fun _ => .ok [{ id := "gpt-4", label := "GPT-4" }] })
        { OPENAI_MODEL := some "fallback-model" } =
      [convertCoreModelToCliModel { id := "gpt-4", label := "GPT-4" }]) ∧
    (getAvailableModelsForAuthType AuthType.USE_OPENAI none { OPENAI_MODEL := some "gpt-4-turbo" } =
      [{ id := "gpt-4-turbo", label := "gpt-4-turbo",
         description := some "Configured via OPENAI_MODEL environment variable" }]) :=
  ⟨claim_C10_config_registry_no_env_fallback.2.2.2.1 AuthType.USE_OPENAI
      { getAvailableModelsForAuthType := fun _ => .error "Registry not initialized" }
      { OPENAI_MODEL := some "fallback-model" } "Registry not initialized" rfl,
   claim_C10_config_registry_no_env_fallback.2.1 AuthType.USE_OPENAI
      { getAvailableModelsForAuthType := fun _ => .ok [{ id := "gpt-4", label := "GPT-4" }] }
      { OPENAI_MODEL := some "fallback-model" } [{ id := "gpt-4", label := "GPT-4" }] rfl
      (by decide),
   claim_C10_config_registry_no_env_fallback.2.2.2.2.1
      { OPENAI_MODEL := some "gpt-4-turbo" }
      { id := "gpt-4-turbo", label := "gpt-4-turbo",
        description := some "Configured via OPENAI_MODEL environment variable" }
      (by decide)⟩

end Qwen

namespace Qwen

/-- Case analysis for the four-layer field resolver: the result is absent or
exactly one of the four layer values, whole. -/
theorem resolveField_four_cases (a b c d : Option α) :
    resolveField [a, b, c, d] = none ∨ resolveField [a, b, c, d] = a ∨
    resolveField [a, b, c, d] = b ∨ resolveField [a, b, c, d] = c ∨
    resolveField [a, b, c, d] = d := by
  cases a <;> cases b <;> cases c <;> cases d <;> simp [resolveField, List.findSome?]

/-- The catalog entry generationConfig of the impermeability example P2. -/
def p2CatalogGenConfig : GenerationConfig :=
  { timeout := some 60000,
    samplingParams := some (.obj [("temperature", .dec 2 1)]) }

/-- The settings-layer generationConfig of the examples P2 and P3. -/
def p2SettingsGenConfig : GenerationConfig :=
  { timeout := some 30000,
    samplingParams := some (.obj [("temperature", .dec 5 1), ("max_tokens", .num 1000)]) }

/-- C1: the impermeable-layer rule. A catalog-backed selection yields the
catalog entry generationConfig verbatim, independent of every lower layer,
with fields the entry does not define left absent; a runtime selection
resolves every scalar field independently across CLI, environment, settings
and defaults, and takes each atomic field whole from the first layer that
defines it, never merging two layers. The conjuncts include the concrete
examples P2 and P3 of the spec. -/
theorem claim_C1_impermeable_generation_config :
    (∀ (g cli envL settings dflt : GenerationConfig),
      mergeGenerationConfig (some g) cli envL settings dflt = g) ∧
    (∀ (cli envL settings dflt : GenerationConfig),
      (mergeGenerationConfig none cli envL settings dflt).timeout =
        resolveField [cli.timeout, envL.timeout, settings.timeout, dflt.timeout] ∧
      (mergeGenerationConfig none cli envL settings dflt).contextWindowSize =
        resolveField [cli.contextWindowSize, envL.contextWindowSize,
          settings.contextWindowSize, dflt.contextWindowSize] ∧
      (mergeGenerationConfig none cli envL settings dflt).samplingParams =
        resolveField [cli.samplingParams, envL.samplingParams,
          settings.samplingParams, dflt.samplingParams] ∧
      (mergeGenerationConfig none cli envL settings dflt).customHeaders =
        resolveField [cli.customHeaders, envL.customHeaders,
          settings.customHeaders, dflt.customHeaders] ∧
      (mergeGenerationConfig none cli envL settings dflt).extra_body =
        resolveField [cli.extra_body, envL.extra_body, settings.extra_body, dflt.extra_body]) ∧
    (∀ (cli envL settings dflt : GenerationConfig),
      (mergeGenerationConfig none cli envL settings dflt).samplingParams = none ∨
      (mergeGenerationConfig none cli envL settings dflt).samplingParams = cli.samplingParams ∨
      (mergeGenerationConfig none cli envL settings dflt).samplingParams = envL.samplingParams ∨
      (mergeGenerationConfig none cli envL settings dflt).samplingParams = settings.samplingParams ∨
      (mergeGenerationConfig none cli envL settings dflt).samplingParams = dflt.samplingParams) ∧
    (mergeGenerationConfig (some p2CatalogGenConfig) {} {} p2SettingsGenConfig {} =
        p2CatalogGenConfig ∧
      (mergeGenerationConfig (some p2CatalogGenConfig) {} {} p2SettingsGenConfig {}).timeout =
        some 60000 ∧
      (mergeGenerationConfig (some p2CatalogGenConfig) {} {} p2SettingsGenConfig {}).samplingParams =
        some (.obj [("temperature", .dec 2 1)]) ∧
      (mergeGenerationConfig (some p2CatalogGenConfig) {} {} p2SettingsGenConfig {}).maxRetries =
        none) ∧
    ((mergeGenerationConfig none {} {} p2SettingsGenConfig {}).timeout = some 30000 ∧
      (mergeGenerationConfig none {} {} p2SettingsGenConfig {}).samplingParams =
        some (.obj [("temperature", .dec 5 1), ("max_tokens", .num 1000)])) := by
  refine ⟨fun g cli envL settings dflt => rfl, fun cli envL settings dflt => ⟨rfl, rfl, rfl, rfl, rfl⟩, ?_, ⟨rfl, rfl, rfl, rfl⟩, ⟨rfl, rfl⟩⟩
  intro cli envL settings dflt
  exact resolveField_four_cases cli.samplingParams envL.samplingParams
    settings.samplingParams dflt.samplingParams

/-- A register step leaves the existing bucket as an unchanged prefix. -/
theorem registerKeepsBucket (es : List ModelConfig) :
    ∀ bucket : List ModelConfig, ∃ suf, (register bucket es).1 = bucket ++ suf := by
  induction es with
  | nil => exact fun bucket => ⟨[], by simp [register]⟩
  | cons e rest ih =>
    intro bucket
    by_cases h : e.id ∈ bucketIds bucket
    · obtain ⟨suf, hsuf⟩ := ih bucket
      exact ⟨suf, by simp [register, h, hsuf]⟩
    · obtain ⟨suf, hsuf⟩ := ih (bucket ++ [e])
      exact ⟨[e] ++ suf, by simp [register, h, hsuf]⟩

/-- The ids of a concatenated bucket. -/
theorem bucketIds_append (l1 l2 : List ModelConfig) :
    bucketIds (l1 ++ l2) = bucketIds l1 ++ bucketIds l2 := by
  simp [bucketIds]

/-- A register step preserves uniqueness of the ids in the bucket. -/
theorem register_ids_nodup (es : List ModelConfig) :
    ∀ bucket : List ModelConfig, (bucketIds bucket).Nodup →
      (bucketIds (register bucket es).1).Nodup := by
  induction es with
  | nil => exact fun bucket h => by simpa [register] using h
  | cons e rest ih =>
    intro bucket h
    by_cases hmem : e.id ∈ bucketIds bucket
    · simpa [register, hmem] using ih bucket h
    · have h2 : (bucketIds (bucket ++ [e])).Nodup := by
        rw [bucketIds_append]
        simp [List.nodup_append, bucketIds]
        exact ⟨h, fun x hx hxe => hmem (hxe ▸ List.mem_map_of_mem (fun e => e.id) hx)⟩
      simpa [register, hmem] using ih (bucket ++ [e]) h2

/-- Every registered entry is either appended or signalled, never both and
never silently dropped. -/
theorem register_length_conservation (es : List ModelConfig) :
    ∀ bucket : List ModelConfig,
      (register bucket es).1.length + (register bucket es).2.length =
        bucket.length + es.length := by
  induction es with
  | nil => intro bucket; simp [register]
  | cons e rest ih =>
    intro bucket
    by_cases h : e.id ∈ bucketIds bucket
    · have := ih bucket
      simp only [register, h, if_pos]
      simp only [List.length_cons]
      omega
    · have h3 := ih (bucket ++ [e])
      simp only [register, h, if_neg, not_false_iff]
      simp only [List.length_append, List.length_cons, List.length_nil] at h3 ⊢
      omega

/-- Any sequence of register calls keeps the ids unique. -/
theorem registerAll_ids_nodup (batches : List (List ModelConfig)) :
    ∀ bucket : List ModelConfig, (bucketIds bucket).Nodup →
      (bucketIds (registerAll bucket batches)).Nodup := by
  induction batches with
  | nil => exact fun bucket h => h
  | cons es rest ih =>
    intro bucket h
    exact ih (register bucket es).1 (register_ids_nodup es bucket h)

/-- C5: registration keeps ids unique within a bucket across every sequence
of register calls; an entry with an already present id is skipped with a
non-fatal DuplicateModelId signal; the existing bucket (first occurrences)
is kept unchanged as a prefix and new entries are appended in input order;
every entry is either appended or signalled. The last conjunct is the
concrete first-wins example P4. -/
theorem claim_C5_register_dedup_first_wins :
    (∀ batches : List (List ModelConfig),
      (bucketIds (registerAll [] batches)).Nodup) ∧
    (∀ (bucket es : List ModelConfig), (bucketIds bucket).Nodup →
      (bucketIds (register bucket es).1).Nodup) ∧
    (∀ (bucket es : List ModelConfig), ∃ suf, (register bucket es).1 = bucket ++ suf) ∧
    (∀ (bucket es : List ModelConfig),
      (register bucket es).1.length + (register bucket es).2.length =
        bucket.length + es.length) ∧
    (register [] [{ id := "gpt-4o", name := some "A" }, { id := "gpt-4o", name := some "B" }] =
      ([{ id := "gpt-4o", name := some "A" }], [CatalogSignal.DuplicateModelId "gpt-4o"])) := by
  refine ⟨?_, ?_, ?_, ?_, by decide⟩
  · intro batches
    exact registerAll_ids_nodup batches [] (by simp [bucketIds])
  · intro bucket es h
    exact register_ids_nodup es bucket h
  · intro bucket es
    exact registerKeepsBucket es bucket
  · intro bucket es
    exact register_length_conservation es bucket

/-- Witness for C5: the uniqueness conjunct applied to a concrete bucket
with a unique id and a batch. -/
theorem claim_C5_witness :
    (bucketIds (register [{ id := "a" }] [{ id := "b" }, { id := "a" }]).1).Nodup :=
  claim_C5_register_dedup_first_wins.2.1 [{ id := "a" }] [{ id := "b" }, { id := "a" }]
    (by decide)

end Qwen

namespace Qwen

/-- Upsert keeps the key set, only appending a genuinely fresh key. -/
theorem upsert_keys (k : String) (v : ResolvedConfiguration) :
    ∀ reg : RuntimeRegistry,
      (upsert k v reg).map Prod.fst =
        if k ∈ reg.map Prod.fst then reg.map Prod.fst else reg.map Prod.fst ++ [k] := by
  intro reg
  induction reg with
  | nil => simp [upsert]
  | cons p rest ih =>
    obtain ⟨k2, v2⟩ := p
    by_cases h : k2 = k
    · subst h
      simp [upsert]
    · simp only [upsert, h, if_neg, not_false_iff, List.map_cons]
      rw [ih]
      by_cases h2 : k ∈ rest.map Prod.fst
      · simp [h2, Ne.symm h]
      · simp [h2, Ne.symm h]

/-- Upsert preserves uniqueness of the addresses. -/
theorem upsert_keys_nodup (k : String) (v : ResolvedConfiguration) (reg : RuntimeRegistry)
    (h : (reg.map Prod.fst).Nodup) : ((upsert k v reg).map Prod.fst).Nodup := by
  rw [upsert_keys]
  by_cases h2 : k ∈ reg.map Prod.fst
  · simpa [h2] using h
  · simp [h2, List.nodup_append, h]

/-- Looking up the upserted key yields the new value. -/
theorem lookup_upsert (k : String) (v : ResolvedConfiguration) :
    ∀ reg : RuntimeRegistry, lookupSnapshot (upsert k v reg) k = some v := by
  intro reg
  induction reg with
  | nil => simp [upsert, lookupSnapshot, List.find?]
  | cons p rest ih =>
    obtain ⟨k2, v2⟩ := p
    by_cases h : k2 = k
    · subst h
      simp [upsert, lookupSnapshot, List.find?]
    · have hb : (k2 == k) = false := by simp [h]
      simp only [upsert, h, if_neg, not_false_iff]
      simpa [lookupSnapshot, List.find?, hb] using ih

/-- C6: the runtime model registry never captures catalog-backed or
incomplete candidates, keeps at most one snapshot per synthetic address
(unique addresses are preserved), and repeated observation of the same
(authType, model) pair, even with different credentials, overwrites the
single snapshot at the single derived address with the latest
observation. -/
theorem claim_C6_runtime_snapshot_idempotence :
    (∀ (reg : RuntimeRegistry) (c : ResolvedConfiguration), observe reg c true = reg) ∧
    (∀ (reg : RuntimeRegistry) (c : ResolvedConfiguration) (isCatalogBacked : Bool),
      isCompleteRuntimeConfig c = false → observe reg c isCatalogBacked = reg) ∧
    (∀ (reg : RuntimeRegistry) (c : ResolvedConfiguration) (isCatalogBacked : Bool),
      (reg.map Prod.fst).Nodup → ((observe reg c isCatalogBacked).map Prod.fst).Nodup) ∧
    (∀ (reg : RuntimeRegistry) (c1 c2 : ResolvedConfiguration),
      isCompleteRuntimeConfig c1 = true → isCompleteRuntimeConfig c2 = true →
      c1.authType = c2.authType → c1.model = c2.model →
      lookupSnapshot (observe (observe reg c1 false) c2 false)
          (syntheticAddress c2.authType c2.model) = some c2) := by
  refine ⟨?_, ?_, ?_, ?_⟩
  · intro reg c
    simp [observe]
  · intro reg c b h
    cases b <;> simp [observe, h]
  · intro reg c b h
    cases b with
    | true => simpa [observe] using h
    | false =>
      by_cases hc : isCompleteRuntimeConfig c
      · simpa [observe, hc] using upsert_keys_nodup (syntheticAddress c.authType c.model) c reg h
      · simpa [observe, hc] using h
  · intro reg c1 c2 h1 h2 hAT hM
    simp only [observe, h1, h2, if_true, if_false, Bool.false_eq_true, ite_false]
    rw [hAT, hM]
    exact lookup_upsert (syntheticAddress c2.authType c2.model) c2 _

/-- Witness for C6: observing the same openai pair twice with different
credentials leaves one snapshot holding the latest credential. -/
theorem claim_C6_witness :
    lookupSnapshot
      (observe
        (observe [] { authType := "openai", model := "my-custom-model", apiKey := some "key-one" }
          false)
        { authType := "openai", model := "my-custom-model", apiKey := some "key-two" } false)
      (syntheticAddress "openai" "my-custom-model") =
      some { authType := "openai", model := "my-custom-model", apiKey := some "key-two" } :=
  claim_C6_runtime_snapshot_idempotence.2.2.2 []
    { authType := "openai", model := "my-custom-model", apiKey := some "key-one" }
    { authType := "openai", model := "my-custom-model", apiKey := some "key-two" }
    (by decide) (by decide) rfl rfl

end Qwen

namespace Qwen

/-- A managed entry of the previous China generation, as replaced in the
frame example P7. -/
def p7ManagedEntry : ModelConfig :=
  { id := "qwen3-coder-plus",
    baseUrl := some chinaCodingBaseUrl,
    envKey := some CODING_PLAN_ENV_KEY }

/-- A user-added entry sharing the bucket but declaring its own credential
reference key, as preserved in the frame example P7. -/
def p7UserEntry : ModelConfig :=
  { id := "my-custom",
    baseUrl := some chinaCodingBaseUrl,
    envKey := some "MY_CUSTOM_KEY" }

/-- The one-entry replacement template of the frame example P7. -/
def p7NewTemplate : List ModelConfig :=
  [{ id := "qwen3.5-plus",
     baseUrl := some chinaCodingBaseUrl,
     envKey := some CODING_PLAN_ENV_KEY }]

/-- C3: applyUpdate removes exactly the entries matching the managed family
signature, keeps every non-matching (user-added) entry unchanged in the
bucket, inserts the whole new template in template order, and the selection
falls back to the first template entry when the previously selected id no
longer exists. The last conjuncts are the concrete frame example P7. -/
theorem claim_C3_applyUpdate_preserves_manual_entries :
    (∀ (bucket : List ModelConfig) (region : CodingPlanRegion) (template : List ModelConfig)
        (e : ModelConfig), e ∈ bucket → codingPlanEntryMatches region e = false →
      e ∈ applyUpdate bucket region template) ∧
    (∀ (bucket : List ModelConfig) (region : CodingPlanRegion) (template : List ModelConfig)
        (e : ModelConfig), e ∈ applyUpdate bucket region template →
      e ∈ template ∨ (e ∈ bucket ∧ codingPlanEntryMatches region e = false)) ∧
    (∀ (bucket : List ModelConfig) (region : CodingPlanRegion) (template : List ModelConfig),
      ∃ kept, applyUpdate bucket region template = kept ++ template) ∧
    (∀ (selected : String) (newBucket template : List ModelConfig),
      selected ∉ bucketIds newBucket →
        reselectAfterUpdate selected newBucket template = template.head?.map (fun e => e.id)) ∧
    (∀ (selected : String) (newBucket template : List ModelConfig),
      selected ∈ bucketIds newBucket →
        reselectAfterUpdate selected newBucket template = some selected) ∧
    (applyUpdate [p7ManagedEntry, p7UserEntry] CodingPlanRegion.CHINA p7NewTemplate =
      p7UserEntry :: p7NewTemplate ∧
     p7UserEntry ∈ applyUpdate [p7ManagedEntry, p7UserEntry] CodingPlanRegion.CHINA p7NewTemplate ∧
     p7ManagedEntry ∉ applyUpdate [p7ManagedEntry, p7UserEntry] CodingPlanRegion.CHINA p7NewTemplate) := by
  refine ⟨?_, ?_, ?_, ?_, ?_, by decide⟩
  · intro bucket region template e he hm
    simp [applyUpdate, List.mem_append, List.mem_filter, he, hm]
  · intro bucket region template e he
    rcases List.mem_append.mp he with h | h
    · rcases List.mem_filter.mp h with ⟨h1, h2⟩
      right
      exact ⟨h1, by simpa using h2⟩
    · left
      exact h
  · intro bucket region template
    exact ⟨bucket.filter (fun e => !(codingPlanEntryMatches region e)), rfl⟩
  · intro selected newBucket template h
    simp [reselectAfterUpdate, h]
  · intro selected newBucket template h
    simp [reselectAfterUpdate, h]

/-- Witness for C3: the preservation conjunct applied to the concrete P7
bucket. -/
theorem claim_C3_witness :
    p7UserEntry ∈ applyUpdate [p7ManagedEntry, p7UserEntry] CodingPlanRegion.CHINA p7NewTemplate :=
  claim_C3_applyUpdate_preserves_manual_entries.1 [p7ManagedEntry, p7UserEntry]
    CodingPlanRegion.CHINA p7NewTemplate p7UserEntry (by decide) (by decide)

/-- C7: when the replacement bucket cannot be fully constructed the whole
updater state, catalog bucket included, is left unchanged, so a state that
was UpdateAvailable remains UpdateAvailable; and in every case the observed
bucket is either the untouched old bucket or the fully constructed
replacement, never a partial mixture. -/
theorem claim_C7_update_all_or_nothing :
    (∀ (s : UpdaterState) (region : CodingPlanRegion) (template : List ModelConfig)
        (latestToken : String), validTemplate template = false →
      tryApplyUpdate s region template latestToken = s) ∧
    (∀ (s : UpdaterState) (region : CodingPlanRegion) (template : List ModelConfig)
        (latestToken tok0 : String),
      s.state = UpdateState.UpdateAvailable tok0 → validTemplate template = false →
        (tryApplyUpdate s region template latestToken).bucket = s.bucket ∧
        (tryApplyUpdate s region template latestToken).state = UpdateState.UpdateAvailable tok0) ∧
    (∀ (s : UpdaterState) (region : CodingPlanRegion) (template : List ModelConfig)
        (latestToken : String),
      tryApplyUpdate s region template latestToken = s ∨
      tryApplyUpdate s region template latestToken =
        { bucket := applyUpdate s.bucket region template,
          state := UpdateState.UpToDate latestToken }) := by
  refine ⟨?_, ?_, ?_⟩
  · intro s region template latestToken h
    simp [tryApplyUpdate, buildReplacementBucket, h]
  · intro s region template latestToken tok0 hs h
    simp [tryApplyUpdate, buildReplacementBucket, h, hs]
  · intro s region template latestToken
    by_cases h : validTemplate template
    · right
      simp [tryApplyUpdate, buildReplacementBucket, h]
    · left
      simp [tryApplyUpdate, buildReplacementBucket, h]

/-- Witness for C7: a malformed (empty) template leaves a concrete
UpdateAvailable state with its bucket entirely unchanged. -/
theorem claim_C7_witness :
    tryApplyUpdate { bucket := [p7UserEntry], state := UpdateState.UpdateAvailable "new-token" }
      CodingPlanRegion.CHINA [] "new-token" =
      { bucket := [p7UserEntry], state := UpdateState.UpdateAvailable "new-token" } :=
  claim_C7_update_all_or_nothing.1
    { bucket := [p7UserEntry], state := UpdateState.UpdateAvailable "new-token" }
    CodingPlanRegion.CHINA [] "new-token" (by decide)

end Qwen

namespace Qwen

/-- A one-entry template whose entry holds the keys id then name. -/
def c2TemplateKeyOrderA : Json :=
  .arr [.obj [("id", .str "m"), ("name", .str "A")]]

/-- The same key/value pairs with the two keys in the other order. -/
def c2TemplateKeyOrderB : Json :=
  .arr [.obj [("name", .str "A"), ("id", .str "m")]]

/-- Counterexample to C2: `computeCodingPlanVersion` hashes the plain
`JSON.stringify` serialization, which keeps object keys in insertion order
instead of canonicalizing them, so two templates holding the same key/value
pairs with keys in a different order receive different version tokens. -/
theorem claim_C2_counterexample :
    computeCodingPlanVersion c2TemplateKeyOrderA ≠
      computeCodingPlanVersion c2TemplateKeyOrderB := by
  decide

/-- C2 (amended): `computeCodingPlanVersion` is SHA-256 of the
`JSON.stringify` serialization: templates with identical serialization
(identical entries with identical key order) always receive identical
tokens, and a change to a field value changes the serialization and, as
witnessed concretely, the token; but the serialization is not canonicalized,
so the same key/value content in a different key order gives a different
token. -/
theorem claim_C2_version_determinism_amended :
    (∀ t1 t2 : Json, stringifyJson t1 = stringifyJson t2 →
      computeCodingPlanVersion t1 = computeCodingPlanVersion t2) ∧
    computeCodingPlanVersion (.arr [.obj [("id", .str "m"), ("contextWindowSize", .num 1000000)]]) ≠
      computeCodingPlanVersion (.arr [.obj [("id", .str "m"), ("contextWindowSize", .num 262144)]]) := by
  constructor
  · intro t1 t2 h
    simp [computeCodingPlanVersion, h]
  · decide

/-- Witness for the amended C2: the determinism conjunct applied at a
concrete template. -/
theorem claim_C2_version_determinism_amended_witness :
    computeCodingPlanVersion c2TemplateKeyOrderA = computeCodingPlanVersion c2TemplateKeyOrderA :=
  claim_C2_version_determinism_amended.1 c2TemplateKeyOrderA c2TemplateKeyOrderA rfl

set_option maxRecDepth 100000 in
set_option maxHeartbeats 2000000 in
/-- The version token of the generated China template, computed through the
whole pipeline (template literals, JSON serialization, UTF-8, SHA-256); the
value matches the digest node produces for the same input. -/
theorem chinaCodingPlanVersionValue :
    computeCodingPlanVersion (codingPlanTemplateJson CodingPlanRegion.CHINA) =
      "4fa19d7e09ad8501d469c997ca7afc7a9262cc6160c91ad351e9f939a11f3561" := by
  decide

set_option maxRecDepth 100000 in
set_option maxHeartbeats 2000000 in
/-- The version token of the generated Global template. -/
theorem globalCodingPlanVersionValue :
    computeCodingPlanVersion (codingPlanTemplateJson CodingPlanRegion.GLOBAL) =
      "b7a85268fd65f03863820ee02313acc936bc213405c48fe98ea95bb5f8ea96d1" := by
  decide

/-- C8: the two coding-plan regions are independent templates: every China
entry points at the China endpoint and every Global entry at the Global
endpoint, getCodingPlanConfig reports exactly the version token of its own
region's generated template together with that region's base URL, and the
two version tokens are distinct. -/
theorem claim_C8_regions_independent :
    (∀ e ∈ generateCodingPlanTemplate CodingPlanRegion.CHINA,
      e.baseUrl = some chinaCodingBaseUrl) ∧
    (∀ e ∈ generateCodingPlanTemplate CodingPlanRegion.GLOBAL,
      e.baseUrl = some globalCodingBaseUrl) ∧
    (∀ r : CodingPlanRegion,
      (getCodingPlanConfig r).version = computeCodingPlanVersion (codingPlanTemplateJson r)) ∧
    (getCodingPlanConfig CodingPlanRegion.CHINA).baseUrl = chinaCodingBaseUrl ∧
    (getCodingPlanConfig CodingPlanRegion.GLOBAL).baseUrl = globalCodingBaseUrl ∧
    (getCodingPlanConfig CodingPlanRegion.CHINA).version ≠
      (getCodingPlanConfig CodingPlanRegion.GLOBAL).version := by
  refine ⟨by decide, by decide, fun r => by cases r <;> rfl, rfl, rfl, ?_⟩
  show computeCodingPlanVersion (codingPlanTemplateJson CodingPlanRegion.CHINA) ≠
    computeCodingPlanVersion (codingPlanTemplateJson CodingPlanRegion.GLOBAL)
  rw [chinaCodingPlanVersionValue, globalCodingPlanVersionValue]
  decide

/-- Witness for C8: the endpoint conjunct applied at the first entry of the
China template. -/
theorem claim_C8_regions_independent_witness :
    ((generateCodingPlanTemplate CodingPlanRegion.CHINA).headD { id := "" }).baseUrl =
      some chinaCodingBaseUrl :=
  claim_C8_regions_independent.1
    ((generateCodingPlanTemplate CodingPlanRegion.CHINA).headD { id := "" }) (by decide)

end Qwen
